import Mathlib

/-!
Shallow embedding of `src/app.py` (a single-file Streamlit document Q&A app).

The app orchestrates external services (a PDF directory loader, a text
splitter, an embedding API reached through `FAISS.from_documents`, a
retriever, and a chat model reached through
`create_retrieval_chain(...).invoke`).  Those externals are modelled as
explicit parameters (`BuildEnv`, `QueryEnv`): each field records the outcome
of one external call, so the embedding is exactly the control flow of the
script around them.  Streamlit's per-session store (`st.session_state`)
becomes the explicit `SessionState` record, and each user interaction (the
sidebar build button, a question submission) becomes a state-transition
function that also returns a record of the user-visible effects it produced.
An uncaught Python exception in a Streamlit run aborts that run at the point
it is raised — state writes before it persist, code after it never runs —
which is modelled by returning `Except.error` together with the state as it
stood at the raise.
-/

/-- A LangChain document: a chunk of page text plus source metadata. -/
structure Doc where
  page_content : String
  source : String := ""
deriving Repr, DecidableEq

/-- The fields of `st.session_state` that `src/app.py` reads or writes.
A FAISS store is modelled by the list of chunks it indexes (the embedding
vectors live on the external side).  The opaque library handles that the
script also stores (`embeddings`, `loader`, `text_splitter`) carry no data
the script ever reads back, so they are not tracked. -/
structure SessionState where
  vectors : Option (List Doc) := none
  docs : Option (List Doc) := none
  final_documents : Option (List Doc) := none
  query_history : List String := []
deriving Repr, DecidableEq

/-- Outcomes of the external calls made by `vector_embedding` (app.py lines
29-45): the `GoogleGenerativeAIEmbeddings` constructor, the
`PyPDFDirectoryLoader("./us_census").load()` call — note the fixed local
directory — the `RecursiveCharacterTextSplitter.split_documents` call, and
`FAISS.from_documents` (where the embedding API is actually called).
Each may raise, carried as `Except.error` with the exception text. -/
structure BuildEnv where
  embedInit : Except String Unit
  loadDocs : Except String (List Doc)
  splitDocs : List Doc → Except String (List Doc)
  faiss : List Doc → Except String (List Doc)

/-- User-visible effects of one build action. `faissInvoked` records whether
`FAISS.from_documents` ran, i.e. whether any embedding calls were made. -/
structure BuildOutcome where
  errorShown : Option String := none
  sidebarError : Option String := none
  sidebarSuccess : Bool := false
  faissInvoked : Bool := false
deriving Repr, DecidableEq

/-- app.py line 37. -/
def noDocsMsg : String := "No documents were loaded or split correctly."

/-- app.py line 49: the `except` clause message, with the exception appended. -/
def faissErrMsg (e : String) : String := "Error creating FAISS vector store: " ++ e

/-- app.py line 64. -/
def uploadGateMsg : String := "Please upload PDF files before creating the vector store."

/-- `vector_embedding()` (app.py lines 25-49).  The whole body is guarded by
`"vectors" not in st.session_state`: when an index already exists the call
does nothing at all.  Otherwise the externals run inside one `try`;
`st.session_state.docs` / `final_documents` are written as the `try`
proceeds and persist even when a later step raises; `vectors` is written
only after `FAISS.from_documents` succeeds.  The second emptiness test in
the source (`len(...) == 0`, line 40) is unreachable after the first
(`not final_documents`, line 36) and therefore collapses into it. -/
def vector_embedding (env : BuildEnv) (s : SessionState) : SessionState × BuildOutcome :=
  if s.vectors.isSome then
    (s, {})
  else
    match env.embedInit with
    | .error e => (s, { errorShown := some (faissErrMsg e) })
    | .ok _ =>
      match env.loadDocs with
      | .error e => (s, { errorShown := some (faissErrMsg e) })
      | .ok ds =>
        let s1 := { s with docs := some ds }
        match env.splitDocs ds with
        | .error e => (s1, { errorShown := some (faissErrMsg e) })
        | .ok final =>
          let s2 := { s1 with final_documents := some final }
          if final.isEmpty then
            (s2, { errorShown := some noDocsMsg })
          else
            match env.faiss final with
            | .error e => (s2, { errorShown := some (faissErrMsg e), faissInvoked := true })
            | .ok store =>
              ({ s2 with vectors := some store }, { sidebarSuccess := true, faissInvoked := true })

/-- One file handed to `st.file_uploader`.  The script only ever tests the
truthiness of the uploaded list (app.py line 61); file contents are never
read. -/
structure UploadedFile where
  name : String
  content : String
deriving Repr, DecidableEq

/-- The "Create Vector Store" button handler (app.py lines 60-64):
`if uploaded_files: vector_embedding() else: st.sidebar.error(...)`. -/
def createVectorStoreClick (uploaded : List UploadedFile) (env : BuildEnv)
    (s : SessionState) : SessionState × BuildOutcome :=
  if uploaded.isEmpty then
    (s, { sidebarError := some uploadGateMsg })
  else
    vector_embedding env s

/-- The dictionary returned by `retrieval_chain.invoke` as the script sees
it: `response.get('answer', ...)` and `"context" in response` are the two
accesses, so the two keys are modelled as `Option` fields. -/
structure Response where
  answer : Option String := none
  context : Option (List Doc) := none
deriving Repr, DecidableEq

/-- External collaborators of the question path: the retriever obtained from
the FAISS store (`vectors.as_retriever()`) searching the store's chunks, the
chat-model call made by the stuff-documents chain, and the value of the
`st.number_input` page selector (which the widget keeps within
`[1, total_pages]`).  Either network call may raise. -/
structure QueryEnv where
  retrieve : List Doc → String → Except String (List Doc)
  llmCall : List Doc → String → Except String String
  page : Nat := 1

/-- `create_retrieval_chain(retriever, document_chain).invoke({'input': q})`
(app.py line 144), per the chain's documented contract (spec section 4.3):
retrieve the similar chunks, then invoke the chat model once on the
retrieved context plus the question, and return a dictionary holding both
the `answer` and the `context`.  The model call happens inside the chain,
unconditionally after retrieval. -/
def retrieval_chain_invoke (env : QueryEnv) (store : List Doc) (input : String) :
    Except String Response :=
  match env.retrieve store input with
  | .error e => .error e
  | .ok ctx =>
    match env.llmCall ctx input with
    | .error e => .error e
    | .ok ans => .ok { answer := some ans, context := some ctx }

/-- app.py line 153: `total_pages = len(response["context"]) // 5 + 1`. -/
def total_pages (n : Nat) : Nat := n / 5 + 1

/-- The page numbers the `st.number_input` control admits (app.py line 154:
`min_value=1, max_value=total_pages`). -/
def pageAdmissible (n page : Nat) : Prop := 1 ≤ page ∧ page ≤ total_pages n

instance (n page : Nat) : Decidable (pageAdmissible n page) :=
  inferInstanceAs (Decidable (1 ≤ page ∧ page ≤ total_pages n))

/-- `display_documents(docs, page, docs_per_page)` (app.py lines 156-163),
reduced to the documents it renders: the Python slice
`docs[(page-1)*docs_per_page : (page-1)*docs_per_page + docs_per_page]`. -/
def display_documents (docs : List Doc) (page : Nat) (docs_per_page : Nat) : List Doc :=
  (docs.drop ((page - 1) * docs_per_page)).take docs_per_page

/-- `generate_insights` (app.py lines 52-54): an explicit stub. -/
def generate_insights (doc_content : String) : String :=
  "Summary of the document..."

/-- User-visible effects of processing one submitted question. -/
structure QAOutcome where
  retrievalInvoked : Bool := false
  modelInvoked : Bool := false
  modelContext : Option (List Doc) := none
  errorShown : Option String := none
  infoShown : Bool := false
  answerShown : Option String := none
  displayedDocs : List Doc := []
  downloadOffered : Bool := false
deriving Repr, DecidableEq

/-- app.py line 176. -/
def vectorStoreMsg : String :=
  "Vector store not initialized. Please create the vector store first using the sidebar."

/-- app.py line 174. -/
def noRelevantDocsMsg : String := "No relevant documents found."

/-- One Streamlit run with question text `q` in the input box: the output
section (app.py lines 136-178) followed by the history append (lines
184-185).  `if prompt1:` is string truthiness; the `vectors` guard is
`"vectors" in st.session_state`.  There is no `try` around
`retrieval_chain.invoke`, so an exception raised by the retriever or the
chat model aborts the run before the history append: that case returns the
state as it stood (no field had been written yet) and `Except.error`.
When the run completes, the non-empty question is appended to
`query_history` on every branch. -/
def runQuestion (env : QueryEnv) (s : SessionState) (q : String) :
    SessionState × Except String QAOutcome :=
  if q.isEmpty then
    (s, .ok { infoShown := true })
  else
    match s.vectors with
    | none =>
      ({ s with query_history := s.query_history ++ [q] },
       .ok { errorShown := some vectorStoreMsg })
    | some store =>
      match retrieval_chain_invoke env store q with
      | .error e => (s, .error e)
      | .ok response =>
        let out : QAOutcome :=
          match response.context with
          | some ctx =>
            { retrievalInvoked := true, modelInvoked := true,
              modelContext := response.context,
              answerShown := some (response.answer.getD "No answer found."),
              displayedDocs := display_documents ctx env.page 5,
              downloadOffered := true }
          | none =>
            { retrievalInvoked := true, modelInvoked := true,
              modelContext := response.context,
              answerShown := some (response.answer.getD "No answer found."),
              errorShown := some noRelevantDocsMsg }
        ({ s with query_history := s.query_history ++ [q] }, .ok out)

/-- The query-history panel (app.py line 189): Python `history[-5:]`. -/
def displayedHistory (h : List String) : List String := h.drop (h.length - 5)

/-- A sequence of question submissions: after an aborted run the session
survives with its state as of the abort, and the next submission runs
afresh. -/
def runMany (env : QueryEnv) : SessionState → List String → SessionState
  | s, [] => s
  | s, q :: qs => runMany env (runQuestion env s q).1 qs

/-- Concrete environments and states used to evaluate the model at specific
inputs. -/
def qenv0 : QueryEnv :=
  { retrieve := fun _ _ => .ok [], llmCall := fun _ _ => .ok "an answer", page := 1 }

def sWithIndex : SessionState :=
  { vectors := some [{ page_content := "indexed chunk", source := "us_census/a.pdf" }] }

def qenvEmptyCtx : QueryEnv :=
  { retrieve := fun _ _ => .ok [], llmCall := fun _ _ => .ok "an answer", page := 1 }

def qenvLlmFail : QueryEnv :=
  { retrieve := fun _ _ => .ok [{ page_content := "c", source := "s" }],
    llmCall := fun _ _ => .error "model boom", page := 1 }

def oldChunk : Doc := { page_content := "old index chunk", source := "old.pdf" }

def newChunk : Doc := { page_content := "new directory chunk", source := "us_census/new.pdf" }

def censusChunk : Doc :=
  { page_content := "Census page text about population.", source := "us_census/p.pdf" }

def buildEnvCensus : BuildEnv :=
  { embedInit := .ok (), loadDocs := .ok [censusChunk],
    splitDocs := fun ds => .ok ds, faiss := fun ds => .ok ds }

def buildEnvNew : BuildEnv :=
  { embedInit := .ok (), loadDocs := .ok [newChunk],
    splitDocs := fun ds => .ok ds, faiss := fun ds => .ok ds }

def buildEnvNoChunks : BuildEnv :=
  { embedInit := .ok (), loadDocs := .ok [censusChunk],
    splitDocs := fun _ => .ok [], faiss := fun ds => .ok ds }

def buildEnvLoadFail : BuildEnv :=
  { embedInit := .ok (), loadDocs := .error "boom",
    splitDocs := fun ds => .ok ds, faiss := fun ds => .ok ds }

def sOldIndex : SessionState := { vectors := some [oldChunk] }

/-! ## Helper lemmas -/

theorem isEmpty_false_of_ne {q : String} (h : q ≠ "") : q.isEmpty = false := by
  cases hq : q.isEmpty
  · rfl
  · exact absurd ((String.isEmpty_iff q).mp hq) h

/-- A completed run with no index: the guard error fires and the question is
appended (app.py lines 175-176 and 184-185). -/
theorem runQuestion_no_index (env : QueryEnv) (s : SessionState) (q : String)
    (hq : q.isEmpty = false) (hv : s.vectors = none) :
    runQuestion env s q =
      ({ s with query_history := s.query_history ++ [q] },
       .ok { errorShown := some vectorStoreMsg }) := by
  unfold runQuestion
  rw [hq, hv]
  rfl

/-- Joining the pages of size 5 recovers the original list. -/
theorem chunks5_join {α : Type} (l : List α) :
    ((List.range ((l.length + 4) / 5)).map (fun i => (l.drop (i * 5)).take 5)).flatten = l := by
  rcases l with _ | ⟨a, t⟩
  · simp
  · have hm : ((a :: t).length + 4) / 5 = (((a :: t).drop 5).length + 4) / 5 + 1 := by
      simp only [List.length_cons, List.length_drop]
      omega
    rw [hm, List.range_succ_eq_map, List.map_cons, List.flatten_cons, List.map_map]
    have hcomp : ((fun i => ((a :: t).drop (i * 5)).take 5) ∘ Nat.succ)
        = fun i => (((a :: t).drop 5).drop (i * 5)).take 5 := by
      funext i
      have h5 : Nat.succ i * 5 = 5 + i * 5 := by omega
      simp only [Function.comp_apply, h5, ← List.drop_drop]
    rw [hcomp, chunks5_join ((a :: t).drop 5)]
    simp
termination_by l.length
decreasing_by
  simp only [List.length_drop, List.length_cons]
  omega

/-! ## Claims -/

/-- C3 (counterexample): with an index already installed (holding `oldChunk`)
and a build environment whose fresh build would produce `[newChunk]`,
re-triggering the build leaves the old index in place and produces no
effects at all, instead of replacing it with the newly built index. -/
theorem c3_counterexample :
    (vector_embedding buildEnvNew ({} : SessionState)).1.vectors = some [newChunk] ∧
    (vector_embedding buildEnvNew sOldIndex).1.vectors = some [oldChunk] ∧
    (vector_embedding buildEnvNew sOldIndex).2 = ({} : BuildOutcome) ∧
    oldChunk ≠ newChunk := by
  refine ⟨rfl, rfl, rfl, ?_⟩
  decide

/-- C3 (amended): re-triggering the build while an index exists is a silent
no-op — the `"vectors" not in st.session_state` guard skips the whole body,
the existing index is kept unchanged, and no message or external call is
produced.  A build only runs when no index is present. -/
theorem c3_rebuild_is_noop (env : BuildEnv) (s : SessionState)
    (h : s.vectors.isSome) :
    vector_embedding env s = (s, {}) := by
  unfold vector_embedding
  rw [if_pos h]

/-- C3 (witness for the amended theorem). -/
theorem c3_rebuild_is_noop_witness :
    (sOldIndex.vectors.isSome = true) ∧
    vector_embedding buildEnvNew sOldIndex = (sOldIndex, {}) :=
  ⟨rfl, c3_rebuild_is_noop buildEnvNew sOldIndex rfl⟩

/-- C4 (counterexample): with N = 5 supporting chunks the computed maximum
page is `total_pages 5 = 2`, while `ceil(5/5) = 1`; page 2 is admitted by
the control even though it lies outside `[1, ceil(5/5)]`. -/
theorem c4_counterexample :
    total_pages 5 = 2 ∧ (5 + 4) / 5 = 1 ∧
    pageAdmissible 5 2 ∧ ¬ 2 ≤ (5 + 4) / 5 := by
  decide

/-- C4 (amended): the control admits exactly the pages in
`[1, N / 5 + 1]` (integer division).  This equals `[1, ceil(N/5)]` when 5
does not divide N, but has one extra (empty) page beyond `ceil(N/5)` when 5
divides N (including N a positive multiple of 5). -/
theorem c4_total_pages_amended (n page : Nat) :
    pageAdmissible n page ↔
      1 ≤ page ∧ page ≤ (n + 4) / 5 + (if n % 5 = 0 then 1 else 0) := by
  unfold pageAdmissible total_pages
  by_cases h5 : n % 5 = 0 <;> simp only [h5, if_pos, if_neg, ite_true, ite_false] <;> omega

/-- C5: the union of the chunks displayed on the valid pages
`1 .. ceil(N/5)` — each page showing the slice
`[(page-1)*5, (page-1)*5 + 5)` exactly as `display_documents` renders it —
is the original chunk list itself: every chunk appears exactly once, none
omitted and none duplicated. -/
theorem c5_pages_partition (docs : List Doc) :
    ((List.range ((docs.length + 4) / 5)).map
      (fun i => display_documents docs (i + 1) 5)).flatten = docs := by
  have h : ∀ i : Nat, display_documents docs (i + 1) 5 = (docs.drop (i * 5)).take 5 := by
    intro i
    unfold display_documents
    simp
  simp only [h]
  exact chunks5_join docs

/-- C1 (counterexample): with an index present and a retriever that returns
zero chunks, the chat model IS invoked (with the empty context), the answer
is rendered, and no error is shown — contradicting the claim that an empty
retrieved context is reported as an error with the model not invoked. -/
theorem c1_counterexample :
    (runQuestion qenvEmptyCtx sWithIndex "What?").2 =
      .ok { retrievalInvoked := true, modelInvoked := true,
            modelContext := some [], errorShown := none,
            answerShown := some "an answer", displayedDocs := [],
            downloadOffered := true } := by
  rfl

/-- C1 (amended): when retrieval yields an empty context, the chat model is
still invoked once, with that empty context, and no error is reported: the
`invoke` call precedes any check, and the only check made afterwards is for
the presence of the `context` key (which the chain always supplies), not for
its emptiness, so the `"No relevant documents found."` branch does not
fire. -/
theorem c1_empty_context_still_invoked (env : QueryEnv) (s : SessionState)
    (store : List Doc) (q ans : String)
    (hq : q.isEmpty = false) (hv : s.vectors = some store)
    (hr : env.retrieve store q = .ok [])
    (hl : env.llmCall [] q = .ok ans) :
    (runQuestion env s q).2 =
      .ok { retrievalInvoked := true, modelInvoked := true,
            modelContext := some [], errorShown := none,
            answerShown := some ans, displayedDocs := [],
            downloadOffered := true } := by
  unfold runQuestion retrieval_chain_invoke
  rw [hq, hv]
  simp only [Bool.false_eq_true, if_false, hr, hl]
  simp [display_documents]

/-- C1 (witness for the amended theorem). -/
theorem c1_empty_context_still_invoked_witness :
    (("What?").isEmpty = false ∧
      sWithIndex.vectors = some [{ page_content := "indexed chunk", source := "us_census/a.pdf" }] ∧
      qenvEmptyCtx.retrieve [{ page_content := "indexed chunk", source := "us_census/a.pdf" }] "What?" = .ok [] ∧
      qenvEmptyCtx.llmCall [] "What?" = .ok "an answer") ∧
    (runQuestion qenvEmptyCtx sWithIndex "What?").2 =
      .ok { retrievalInvoked := true, modelInvoked := true,
            modelContext := some [], errorShown := none,
            answerShown := some "an answer", displayedDocs := [],
            downloadOffered := true } :=
  ⟨⟨rfl, rfl, rfl, rfl⟩,
   c1_empty_context_still_invoked qenvEmptyCtx sWithIndex _ "What?" "an answer" rfl rfl rfl rfl⟩

/-- C2 (code bug): once the uploaded list is non-empty the build action is
`vector_embedding env s`, which depends only on the environment — whose
loader reads the fixed local directory `./us_census` — and the session
state.  The uploaded files themselves (names and contents) are never read:
the index is built from the directory, not from the uploads. -/
theorem c2_upload_content_unused (u : List UploadedFile) (env : BuildEnv)
    (s : SessionState) (h : u.isEmpty = false) :
    createVectorStoreClick u env s = vector_embedding env s := by
  unfold createVectorStoreClick
  rw [h]
  rfl

/-- C2 (witness): a concrete upload whose content (`"My own document text"`)
never reaches the index — the build result equals the upload-independent
`vector_embedding`, which here indexes the directory chunk
`censusChunk`. -/
theorem c2_upload_content_unused_witness :
    ([⟨"mine.pdf", "My own document text"⟩] : List UploadedFile).isEmpty = false ∧
    createVectorStoreClick [⟨"mine.pdf", "My own document text"⟩] buildEnvCensus {} =
      vector_embedding buildEnvCensus {} :=
  ⟨rfl, c2_upload_content_unused [⟨"mine.pdf", "My own document text"⟩] buildEnvCensus {} rfl⟩

/-- C6: a non-empty question submitted while no index exists produces
exactly the index-not-ready error — no retrieval, no chat-model call, no
answer, no documents — and the run completes. -/
theorem c6_no_index_guard (env : QueryEnv) (s : SessionState) (q : String)
    (hq : q ≠ "") (hv : s.vectors = none) :
    runQuestion env s q =
      ({ s with query_history := s.query_history ++ [q] },
       .ok { retrievalInvoked := false, modelInvoked := false,
             errorShown := some vectorStoreMsg, answerShown := none,
             displayedDocs := [] }) :=
  runQuestion_no_index env s q (isEmpty_false_of_ne hq) hv

/-- C6 (witness). -/
theorem c6_no_index_guard_witness :
    ("What?" ≠ "" ∧ ({} : SessionState).vectors = none) ∧
    runQuestion qenv0 {} "What?" =
      ({ query_history := ["What?"] },
       .ok { retrievalInvoked := false, modelInvoked := false,
             errorShown := some vectorStoreMsg, answerShown := none,
             displayedDocs := [] }) :=
  ⟨⟨by decide, rfl⟩, c6_no_index_guard qenv0 {} "What?" (by decide) rfl⟩

/-- Helper for C7: with no index present, a sequence of non-empty
submissions appends each question in order and never installs an index. -/
theorem runMany_append_no_index (env : QueryEnv) (qs : List String) :
    ∀ (s : SessionState), s.vectors = none → (∀ q ∈ qs, q ≠ "") →
      (runMany env s qs).query_history = s.query_history ++ qs ∧
      (runMany env s qs).vectors = none := by
  induction qs with
  | nil =>
    intro s hv _
    exact ⟨by simp [runMany], hv⟩
  | cons q qs ih =>
    intro s hv hqs
    have hq : q ≠ "" := hqs q (by simp)
    have hstep : (runQuestion env s q).1 =
        { s with query_history := s.query_history ++ [q] } := by
      rw [runQuestion_no_index env s q (isEmpty_false_of_ne hq) hv]
    have h2 := ih { s with query_history := s.query_history ++ [q] } hv
      (fun r hr => hqs r (by simp [hr]))
    simp only [runMany, hstep]
    exact ⟨by rw [h2.1]; simp, h2.2⟩

/-- C7: submitting six non-empty questions in order into a fresh session
stores all six in submission order, while the history panel displays
exactly the last five in append order — storage is unbounded, only the
display is capped at 5. -/
theorem c7_history (env : QueryEnv) (q1 q2 q3 q4 q5 q6 : String)
    (h1 : q1 ≠ "") (h2 : q2 ≠ "") (h3 : q3 ≠ "") (h4 : q4 ≠ "")
    (h5 : q5 ≠ "") (h6 : q6 ≠ "") :
    (runMany env {} [q1, q2, q3, q4, q5, q6]).query_history
        = [q1, q2, q3, q4, q5, q6] ∧
    displayedHistory (runMany env {} [q1, q2, q3, q4, q5, q6]).query_history
        = [q2, q3, q4, q5, q6] := by
  have hall : ∀ q ∈ [q1, q2, q3, q4, q5, q6], q ≠ "" := by
    simp [h1, h2, h3, h4, h5, h6]
  have h := (runMany_append_no_index env [q1, q2, q3, q4, q5, q6] {} rfl hall).1
  rw [h]
  exact ⟨rfl, rfl⟩

/-- C7 (witness). -/
theorem c7_history_witness :
    ("a" ≠ "" ∧ "b" ≠ "" ∧ "c" ≠ "" ∧ "d" ≠ "" ∧ "e" ≠ "" ∧ "f" ≠ "") ∧
    (runMany qenv0 {} ["a", "b", "c", "d", "e", "f"]).query_history
        = ["a", "b", "c", "d", "e", "f"] ∧
    displayedHistory (runMany qenv0 {} ["a", "b", "c", "d", "e", "f"]).query_history
        = ["b", "c", "d", "e", "f"] :=
  ⟨⟨by decide, by decide, by decide, by decide, by decide, by decide⟩,
   c7_history qenv0 "a" "b" "c" "d" "e" "f"
     (by decide) (by decide) (by decide) (by decide) (by decide) (by decide)⟩

/-- C8: (1) with no files supplied, the button handler only shows the
sidebar error — the session (and so any prior index) is untouched and no
embedding call (`FAISS.from_documents`) is made; (2) with files supplied
but splitting yielding zero chunks, the build shows the error message,
makes no embedding call, and installs no index (the `vectors` field stays
unset). -/
theorem c8_empty_build_guards (u : List UploadedFile) (env : BuildEnv)
    (s : SessionState) :
    (u.isEmpty = true →
      createVectorStoreClick u env s = (s, { sidebarError := some uploadGateMsg })) ∧
    (u.isEmpty = false → s.vectors = none →
      ∀ ds, env.embedInit = .ok () → env.loadDocs = .ok ds →
        env.splitDocs ds = .ok [] →
        createVectorStoreClick u env s =
          ({ s with docs := some ds, final_documents := some [] },
           { errorShown := some noDocsMsg, faissInvoked := false })) := by
  constructor
  · intro hu
    unfold createVectorStoreClick
    rw [hu]
    rfl
  · intro hu hv ds he hl hs
    unfold createVectorStoreClick vector_embedding
    rw [hu]
    simp only [hv, Option.isSome_none, Bool.false_eq_true, if_false, he, hl, hs,
      List.isEmpty_nil, if_true]

/-- C8 (witness): the empty-uploads case at a state holding a prior index,
and the zero-chunks case at a fresh state. -/
theorem c8_empty_build_guards_witness :
    (([] : List UploadedFile).isEmpty = true ∧
      createVectorStoreClick [] buildEnvCensus sOldIndex =
        (sOldIndex, { sidebarError := some uploadGateMsg })) ∧
    (([⟨"a.pdf", "some text"⟩] : List UploadedFile).isEmpty = false ∧
      ({} : SessionState).vectors = none ∧
      buildEnvNoChunks.embedInit = .ok () ∧
      buildEnvNoChunks.loadDocs = .ok [censusChunk] ∧
      buildEnvNoChunks.splitDocs [censusChunk] = .ok [] ∧
      createVectorStoreClick [⟨"a.pdf", "some text"⟩] buildEnvNoChunks {} =
        ({ docs := some [censusChunk], final_documents := some [] },
         { errorShown := some noDocsMsg, faissInvoked := false })) :=
  ⟨⟨rfl, (c8_empty_build_guards [] buildEnvCensus sOldIndex).1 rfl⟩,
   ⟨rfl, rfl, rfl, rfl, rfl,
    (c8_empty_build_guards [⟨"a.pdf", "some text"⟩] buildEnvNoChunks {}).2
      rfl rfl [censusChunk] rfl rfl rfl⟩⟩

/-- C9: whichever step of the build raises — the embeddings constructor,
the directory load, the splitter, or `FAISS.from_documents` — the `except`
clause catches it: no index is installed (`vectors` stays unset), the
visible error message carries the underlying cause appended, and no
success is reported.  The build is atomic for the caller. -/
theorem c9_exception_atomicity (env : BuildEnv) (s : SessionState) (e : String)
    (hv : s.vectors = none)
    (hfail :
      env.embedInit = .error e ∨
      (env.embedInit = .ok () ∧ env.loadDocs = .error e) ∨
      (∃ ds, env.embedInit = .ok () ∧ env.loadDocs = .ok ds ∧
        env.splitDocs ds = .error e) ∨
      (∃ ds final, env.embedInit = .ok () ∧ env.loadDocs = .ok ds ∧
        env.splitDocs ds = .ok final ∧ final.isEmpty = false ∧
        env.faiss final = .error e)) :
    (vector_embedding env s).1.vectors = none ∧
    (vector_embedding env s).2.errorShown = some (faissErrMsg e) ∧
    (vector_embedding env s).2.sidebarSuccess = false := by
  unfold vector_embedding
  rcases hfail with h | ⟨h1, h2⟩ | ⟨ds, h1, h2, h3⟩ | ⟨ds, final, h1, h2, h3, h4, h5⟩ <;>
    simp [hv, *]

/-- C9 (witness): the directory load raises `"boom"`. -/
theorem c9_exception_atomicity_witness :
    (({} : SessionState).vectors = none ∧
      buildEnvLoadFail.embedInit = .ok () ∧ buildEnvLoadFail.loadDocs = .error "boom") ∧
    (vector_embedding buildEnvLoadFail {}).1.vectors = none ∧
    (vector_embedding buildEnvLoadFail {}).2.errorShown = some (faissErrMsg "boom") ∧
    (vector_embedding buildEnvLoadFail {}).2.sidebarSuccess = false :=
  ⟨⟨rfl, rfl, rfl⟩,
   c9_exception_atomicity buildEnvLoadFail {} "boom" rfl (Or.inr (Or.inl ⟨rfl, rfl⟩))⟩

/-- C10 (counterexample): a non-empty question submitted with an index
present, whose chat call raises: the run aborts before the history append
(there is no `try` around `retrieval_chain.invoke`), so the question is NOT
appended — history growth is conditional on the run completing, not
unconditional on outcome. -/
theorem c10_counterexample :
    "Why?" ≠ "" ∧ sWithIndex.vectors.isSome = true ∧
    (runQuestion qenvLlmFail sWithIndex "Why?").2 = .error "model boom" ∧
    (runQuestion qenvLlmFail sWithIndex "Why?").1.query_history = [] ∧
    sWithIndex.query_history = [] :=
  ⟨by decide, rfl, rfl, rfl, rfl⟩

/-- C10 (amended): every non-empty submitted question is appended to the
session history whenever the run completes — in particular on the
index-not-ready error path and on any completed answering path — but not
when retrieval or the chat call raises, which aborts the run before the
append. -/
theorem c10_append_on_completed_runs (env : QueryEnv) (s : SessionState)
    (q : String) (out : QAOutcome) (hq : q.isEmpty = false)
    (hok : (runQuestion env s q).2 = .ok out) :
    (runQuestion env s q).1.query_history = s.query_history ++ [q] := by
  unfold runQuestion at hok ⊢
  rw [hq] at hok ⊢
  cases hv : s.vectors with
  | none =>
    simp only [hv, Bool.false_eq_true, if_false]
  | some store =>
    simp only [hv, Bool.false_eq_true, if_false] at hok ⊢
    cases hr : retrieval_chain_invoke env store q with
    | error e =>
      rw [hr] at hok
      exact Except.noConfusion hok
    | ok r =>
      simp only [hr]

/-- C10 (witness for the amended theorem): a completed index-not-ready run
appends the question. -/
theorem c10_append_on_completed_runs_witness :
    (("What?").isEmpty = false ∧
      (runQuestion qenv0 {} "What?").2 = .ok { errorShown := some vectorStoreMsg }) ∧
    (runQuestion qenv0 {} "What?").1.query_history = [] ++ ["What?"] :=
  ⟨⟨rfl, rfl⟩,
   c10_append_on_completed_runs qenv0 {} "What?"
     { errorShown := some vectorStoreMsg } rfl rfl⟩
